import Mathlib

/-!
Verification of the harbor-cli migration orchestration pipeline.

The development shallowly embeds the four oclif commands of the repository
(`generate`, `migrate`, `troubleshoot`, `notify`; the last is out of the
verified core) as pure Lean functions.  Filesystem state, interactive prompt
answers and the outcomes of external processes (docker buildx, pg_dump /
mysqldump, the container runtime API, docker-compose) are passed in explicitly
as a "world" record; each command run returns the list of observable events it
produced (log lines, prompts, spawned external commands, file writes) together
with its final result.  `execSync` throws on a nonzero exit status and the
source contains no try/catch around those calls, so a failing external command
is modelled as a short-circuit to a `crashed` result carrying the error
text, mirroring the uncaught exception leaving `run`.
-/

/-- Single quotation mark character, kept out of string literals. -/
def squote : String := String.mk [Char.ofNat 39]

/-- Result of a synchronous external invocation (`execSync` / awaited API
call): `ok` for exit status zero, `err msg` for a nonzero exit whose thrown
error carries `msg`. -/
inductive ExtResult where
  | ok : ExtResult
  | err (msg : String) : ExtResult
deriving DecidableEq, Repr

/-- JavaScript truthiness of an optional string flag: `undefined` and the
empty string are falsy. -/
def optTruthy (s : Option String) : Bool :=
  match s with
  | Option.none => false
  | Option.some v => v != ""

/-- Model of Node `path.join dir file` as used by the commands (the sources
only join a directory with a file name). -/
def pathJoin (dir file : String) : String := dir ++ "/" ++ file

/-! ## Generate command (src/commands/generate.ts, auto-detect version) -/

/-- Marker files of the project directory inspected by `detectStack`. -/
structure DirState where
  packageJson : Bool
  requirementsTxt : Bool
  srcIndexJs : Bool
deriving DecidableEq, Repr

/-- `Generate.detectStack`: checks marker files in order; the `react` branch
requires `package.json`, which the first branch already consumed. -/
def detectStack (d : DirState) : Option String :=
  if d.packageJson then Option.some "node-prisma"
  else if d.requirementsTxt then Option.some "python"
  else if d.packageJson && d.srcIndexJs then Option.some "react"
  else Option.none

/-- The interactive answers `{port, entrypoint}` passed to the template
generators. -/
structure GenAnswers where
  port : String
  entrypoint : String
deriving DecidableEq, Repr

/-- `Generate.generateDockerfileContent`: renders the build recipe for the
given stack (dedented template strings of the source). -/
def generateDockerfileContent (stack : Option String) (a : GenAnswers) : String :=
  if stack == Option.some "node-prisma" then
    "FROM node:20 AS builder\nWORKDIR /app\nCOPY package*.json ./\nRUN npm ci\nCOPY . .\nRUN npx prisma generate\nRUN npm run build\n\nFROM node:20-slim\nWORKDIR /app\nCOPY --from=builder /app/dist ./dist\nCOPY --from=builder /app/node_modules ./node_modules\nCOPY --from=builder /app/prisma ./prisma\nENV NODE_ENV=production\nEXPOSE " ++ a.port ++ "\nCMD [\"node\", \"" ++ a.entrypoint ++ "\"]"
  else if stack == Option.some "python" then
    "FROM python:3.10-slim\nWORKDIR /app\nCOPY requirements.txt ./\nRUN pip install -r requirements.txt\nCOPY . .\nEXPOSE " ++ a.port ++ "\nCMD [\"python\", \"" ++ a.entrypoint ++ "\"]"
  else if stack == Option.some "react" then
    "FROM node:20 AS builder\nWORKDIR /app\nCOPY package*.json ./\nRUN npm ci\nCOPY . .\nRUN npm run build\n\nFROM nginx:alpine\nCOPY --from=builder /app/build /usr/share/nginx/html\nEXPOSE " ++ a.port ++ "\nCMD [\"nginx\", \"-g\", \"daemon off;\"]"
  else
    "# Default/generic Dockerfile - customize me!\nFROM alpine\nWORKDIR /app\nCOPY . .\nEXPOSE " ++ a.port ++ "\nCMD [\"echo\", \"Hello from generic app\"]"

/-- `Generate.generateComposeContent`: renders the run manifest (the `stack`
parameter is accepted but unused, as in the source). -/
def generateComposeContent (stack : Option String) (a : GenAnswers) : String :=
  "version: " ++ squote ++ "3.8" ++ squote ++ "\nservices:\n  app:\n    build: .\n    ports:\n      - \"" ++ a.port ++ ":" ++ a.port ++ "\"\n    environment:\n      - NODE_ENV=production  # Adjust for your stack (e.g., PYTHON_ENV for Python)"

/-- Flags of `harborcli generate`. -/
structure GenFlags where
  stack : Option String
  output : String
  force : Bool
deriving DecidableEq, Repr

/-- World a `generate` run interacts with: marker files, existing artifacts,
and the answers the operator would give to each prompt. -/
structure GenWorld where
  dir : DirState
  dockerfileExists : Bool
  composeExists : Bool
  stackAnswer : String
  overwriteAnswer : Bool
  portAnswer : String
  entrypointAnswer : String
deriving DecidableEq, Repr

/-- Observable events of a `generate` run. -/
inductive GEvent where
  | logged (msg : String) : GEvent
  | prompted (q : String) : GEvent
  | wrote (path : String) (content : String) : GEvent
deriving DecidableEq, Repr

/-- Final result of a `generate` run. -/
inductive GenResult where
  | generated : GenResult
  | skipped : GenResult
deriving DecidableEq, Repr

/-- Step 1 of `Generate.run`: resolve the stack from the flag, else from
auto-detection, else from the interactive choice. -/
def Generate.resolveStack (flags : GenFlags) (w : GenWorld) : List GEvent × String :=
  match flags.stack with
  | Option.some s => ([], s)
  | Option.none =>
    match detectStack w.dir with
    | Option.some s => ([GEvent.logged ("Auto-detected stack: " ++ s ++ ".")], s)
    | Option.none =>
      ([GEvent.logged "Auto-detected stack: unknown.",
        GEvent.prompted "Could not auto-detect stack. Choose one:"], w.stackAnswer)

/-- `Generate.run`: resolve the stack, guard against overwriting existing
artifacts (prompting unless `--force`), then prompt for port/entrypoint and
write both artifacts. -/
def Generate.run (flags : GenFlags) (w : GenWorld) : List GEvent × GenResult :=
  let intro := [GEvent.logged ("Starting generation in directory: " ++ flags.output ++ ".")]
  match Generate.resolveStack flags w with
  | (es1, stack) =>
    let dockerfilePath := pathJoin flags.output "Dockerfile"
    let composePath := pathJoin flags.output "docker-compose.yml"
    let guardEs :=
      if (w.dockerfileExists || w.composeExists) && !flags.force then
        [GEvent.logged "Existing files found.", GEvent.prompted "Overwrite existing files?"]
      else []
    if (w.dockerfileExists || w.composeExists) && !flags.force && !w.overwriteAnswer then
      (intro ++ es1 ++ guardEs ++
        [GEvent.logged "Generation skipped. Use --force to override."], GenResult.skipped)
    else
      let a : GenAnswers := ⟨w.portAnswer, w.entrypointAnswer⟩
      (intro ++ es1 ++ guardEs ++
        [GEvent.prompted "What port does your app run on?",
         GEvent.prompted "What is your app entrypoint?",
         GEvent.wrote dockerfilePath (generateDockerfileContent (Option.some stack) a),
         GEvent.logged ("Dockerfile generated/updated at: " ++ dockerfilePath),
         GEvent.wrote composePath (generateComposeContent (Option.some stack) a),
         GEvent.logged ("docker-compose.yml generated/updated at: " ++ composePath)],
       GenResult.generated)

/-- Predicate selecting the file-write events of a `generate` trace. -/
def isWrite : GEvent → Bool
  | GEvent.wrote _ _ => true
  | _ => false

/-- The Artifact Guard contract: generation is authorized iff neither artifact
exists, or force is set, or the operator confirms overwrite. -/
def genAuthorized (df c force ans : Bool) : Bool :=
  (!df && !c) || force || ans

/-! ## Migrate command (src/commands/migrate.ts) -/

/-- Database kinds accepted by the `--dbType` flag. -/
inductive DbType where
  | postgres : DbType
  | mysql : DbType
  | none : DbType
deriving DecidableEq, Repr

/-- Flags of `harborcli migrate`. -/
structure MigrateFlags where
  image : String
  vps : Option String
  dbType : DbType
  force : Bool
deriving DecidableEq, Repr

/-- World a `migrate` run interacts with: artifact existence, prompt answers,
and the outcome of every external invocation the run may attempt. -/
structure MigrateWorld where
  dockerfileExists : Bool
  composeExists : Bool
  buildAnswer : Bool
  dbName : String
  buildResult : ExtResult
  dumpResult : ExtResult
  dockerVersionResult : ExtResult
  composeUpResult : ExtResult
deriving DecidableEq, Repr

/-- Observable events of a `migrate` run.  Each `ran*` constructor records an
`execSync` call site with the exact command string; `dockerVersionQuery` is the
awaited `docker.version()` API call; `vpsInstructions` is the manual
remote-deployment message naming the target and the image reference. -/
inductive MEvent where
  | logged (msg : String) : MEvent
  | prompted (q : String) : MEvent
  | ranBuild (cmd : String) : MEvent
  | ranDump (cmd : String) : MEvent
  | dockerVersionQuery : MEvent
  | ranComposeUp (cmd : String) : MEvent
  | vpsInstructions (vps image : String) : MEvent
deriving DecidableEq, Repr

/-- Final result of a `migrate` run: `completed` normally, `earlyReturn` on the
missing-artifacts informational return, `crashed msg` when an uncaught error
from an external call leaves `run`. -/
inductive MResult where
  | completed : MResult
  | earlyReturn : MResult
  | crashed (msg : String) : MResult
deriving DecidableEq, Repr

/-- The buildx command line issued by step 1. -/
def buildCmd (image : String) : String :=
  "docker buildx build --platform linux/amd64,linux/arm64 -t " ++ image ++ " --push ."

/-- The dump command line issued by step 2 (only reached for postgres/mysql). -/
def dumpCmd (db : DbType) (name : String) : String :=
  match db with
  | DbType.postgres => "pg_dump " ++ name ++ " > db_dump.sql"
  | DbType.mysql => "mysqldump " ++ name ++ " > db_dump.sql"
  | DbType.none => ""

/-- `Migrate.checkDockerFiles`: both artifacts must exist. -/
def Migrate.checkDockerFiles (w : MigrateWorld) : Bool :=
  w.dockerfileExists && w.composeExists

/-- Step 1 of `Migrate.run` (Build and Push): confirm (prompt unless
`--force`), then run buildx; returns the produced events and the error text of
an uncaught failure, if any. -/
def Migrate.step1 (flags : MigrateFlags) (w : MigrateWorld) : List MEvent × Option String :=
  let promptEs :=
    if flags.force then [] else [MEvent.prompted "Build and push the Docker image?"]
  if flags.force || w.buildAnswer then
    match w.buildResult with
    | ExtResult.ok =>
        (promptEs ++ [MEvent.logged "Building multi-platform image with Buildx...",
          MEvent.ranBuild (buildCmd flags.image),
          MEvent.logged "Image built and pushed successfully!"], Option.none)
    | ExtResult.err e =>
        (promptEs ++ [MEvent.logged "Building multi-platform image with Buildx...",
          MEvent.ranBuild (buildCmd flags.image)], Option.some e)
  else (promptEs, Option.none)

/-- Step 2 of `Migrate.run` (Data Sync): skipped for `dbType none`; otherwise
prompts for the database name and runs the dump tool. -/
def Migrate.step2 (flags : MigrateFlags) (w : MigrateWorld) : List MEvent × Option String :=
  match flags.dbType with
  | DbType.none => ([MEvent.logged "Skipping data sync. Use --dbType to enable."], Option.none)
  | db =>
    let pre := [MEvent.logged "Syncing data.", MEvent.prompted "Database name?"]
    match w.dumpResult with
    | ExtResult.ok =>
        (pre ++ [MEvent.ranDump (dumpCmd db w.dbName),
          MEvent.logged "Data dumped to db_dump.sql."], Option.none)
    | ExtResult.err e =>
        (pre ++ [MEvent.ranDump (dumpCmd db w.dbName)], Option.some e)

/-- Step 3 of `Migrate.run` (Staging Deployment): query the docker daemon,
then either emit the manual VPS instructions (truthy `--vps`) or run
`docker-compose up -d` locally. -/
def Migrate.step3 (flags : MigrateFlags) (w : MigrateWorld) : List MEvent × Option String :=
  let pre := [MEvent.logged "Checking local Docker daemon...", MEvent.dockerVersionQuery]
  match w.dockerVersionResult with
  | ExtResult.err e => (pre, Option.some e)
  | ExtResult.ok =>
    if optTruthy flags.vps then
      (pre ++ [MEvent.vpsInstructions (flags.vps.getD "") flags.image], Option.none)
    else
      match w.composeUpResult with
      | ExtResult.ok =>
          (pre ++ [MEvent.logged "Deploying staging locally.",
            MEvent.ranComposeUp "docker-compose up -d",
            MEvent.logged "Staging deployment running!"], Option.none)
      | ExtResult.err e =>
          (pre ++ [MEvent.logged "Deploying staging locally.",
            MEvent.ranComposeUp "docker-compose up -d"], Option.some e)

/-- `Migrate.run`: intro log, artifact precheck, then steps 1-3 in order; an
uncaught external failure aborts the remaining steps and crashes the run with
the error text. -/
def Migrate.run (flags : MigrateFlags) (w : MigrateWorld) : List MEvent × MResult :=
  let intro := [MEvent.logged ("Starting migration for image: " ++ flags.image ++ ".")]
  if !(Migrate.checkDockerFiles w) then
    (intro ++ [MEvent.logged "Missing Docker files. Run harborcli generate first."],
     MResult.earlyReturn)
  else
    match Migrate.step1 flags w with
    | (es1, Option.some e) => (intro ++ es1, MResult.crashed e)
    | (es1, Option.none) =>
      match Migrate.step2 flags w with
      | (es2, Option.some e) => (intro ++ es1 ++ es2, MResult.crashed e)
      | (es2, Option.none) =>
        match Migrate.step3 flags w with
        | (es3, Option.some e) => (intro ++ es1 ++ es2 ++ es3, MResult.crashed e)
        | (es3, Option.none) =>
          (intro ++ es1 ++ es2 ++ es3 ++ [MEvent.logged "Migration steps complete!"],
           MResult.completed)

/-- Predicate selecting build invocations in a `migrate` trace. -/
def isRanBuild : MEvent → Bool
  | MEvent.ranBuild _ => true
  | _ => false

/-- Predicate selecting dump-tool invocations in a `migrate` trace. -/
def isRanDump : MEvent → Bool
  | MEvent.ranDump _ => true
  | _ => false

/-- Predicate selecting the docker daemon query in a `migrate` trace. -/
def isDockerVersionQuery : MEvent → Bool
  | MEvent.dockerVersionQuery => true
  | _ => false

/-- Predicate selecting local compose-up invocations in a `migrate` trace. -/
def isRanComposeUp : MEvent → Bool
  | MEvent.ranComposeUp _ => true
  | _ => false

/-- Predicate selecting the manual VPS-instructions message in a trace. -/
def isVpsInstr : MEvent → Bool
  | MEvent.vpsInstructions _ _ => true
  | _ => false

/-! ## Troubleshoot command (src/commands/troubleshoot.ts) -/

/-- One entry of the `docker.listContainers` result (the fields the command
reads). -/
structure ContainerEntry where
  id : String
  name : String
  status : String
deriving DecidableEq, Repr

/-- The `container.inspect()` result fields the command reads.  `ports`
models `NetworkSettings.Ports` as the list of its keys; `Option.none` models a
null/undefined mapping. -/
structure InspectInfo where
  name : String
  status : String
  ports : Option (List String)
  image : String
deriving DecidableEq, Repr

/-- Flags of `harborcli troubleshoot`. -/
structure TsFlags where
  container : Option String
deriving DecidableEq, Repr

/-- World a `troubleshoot` run interacts with: the live container list, the
interactive answers, and the inspect/log data of the selected container. -/
structure TsWorld where
  containers : List ContainerEntry
  selectionAnswer : String
  inspect : InspectInfo
  checkLogsAnswer : Bool
  logText : String
deriving DecidableEq, Repr

/-- Observable events of a `troubleshoot` run.  The two `diagnosed*`
constructors are the issue-detected log messages of the source. -/
inductive TEvent where
  | logged (msg : String) : TEvent
  | prompted (q : String) : TEvent
  | inspected (id : String) : TEvent
  | fetchedLogs : TEvent
  | diagnosedNotRunning (status : String) : TEvent
  | diagnosedNoPorts : TEvent
deriving DecidableEq, Repr

/-- Final result of a `troubleshoot` run. -/
inductive TResult where
  | completed : TResult
  | earlyNoContainers : TResult
  | earlyNoSelection : TResult
deriving DecidableEq, Repr

/-- The `Object.keys(Ports).length > 0` check, with the JS truthiness guard on
the mapping itself. -/
def portsConfigured (ports : Option (List String)) : Bool :=
  match ports with
  | Option.none => false
  | Option.some ks => decide (0 < ks.length)

/-- Target-container resolution of `Troubleshoot.run`: the `--container` flag
if truthy, else the interactively selected id. -/
def Troubleshoot.resolveTarget (flags : TsFlags) (w : TsWorld) : List TEvent × String :=
  if optTruthy flags.container then ([], flags.container.getD "")
  else ([TEvent.prompted "Select a container to troubleshoot:"], w.selectionAnswer)

/-- `Troubleshoot.run`: list containers (stop if none), resolve a target (stop
if falsy), inspect it, flag a non-running status, optionally fetch the log
tail, then run the no-ports heuristic check. -/
def Troubleshoot.run (flags : TsFlags) (w : TsWorld) : List TEvent × TResult :=
  let intro := [TEvent.logged "Starting troubleshooting session."]
  if w.containers.length == 0 then
    (intro ++ [TEvent.logged "No containers found. Start your app with docker-compose up."],
     TResult.earlyNoContainers)
  else
    match Troubleshoot.resolveTarget flags w with
    | (selEs, target) =>
      if target == "" then
        (intro ++ selEs ++ [TEvent.logged "No container selected. Exiting."],
         TResult.earlyNoSelection)
      else
        let notRunEs :=
          if w.inspect.status != "running" then
            [TEvent.diagnosedNotRunning w.inspect.status] else []
        let logEs :=
          if w.checkLogsAnswer then
            [TEvent.fetchedLogs, TEvent.logged ("Recent Logs: " ++ w.logText)] else []
        let portEs :=
          if portsConfigured w.inspect.ports then
            [TEvent.logged "Ports seem configured."] else [TEvent.diagnosedNoPorts]
        (intro ++ selEs ++
          [TEvent.inspected target, TEvent.logged "Container Stats."] ++ notRunEs ++
          [TEvent.prompted "View recent logs?"] ++ logEs ++
          [TEvent.logged "Running common checks..."] ++ portEs ++
          [TEvent.logged "Troubleshooting complete!"],
         TResult.completed)

/-- Predicate selecting container inspections in a `troubleshoot` trace. -/
def isInspected : TEvent → Bool
  | TEvent.inspected _ => true
  | _ => false

/-! ## Concrete sample inputs used to instantiate the theorems -/

/-- Generate flags with `--force`, default output directory. -/
def genF0 : GenFlags := ⟨Option.some "node-prisma", ".", true⟩

/-- Generate flags without `--force`. -/
def genF1 : GenFlags := ⟨Option.some "node-prisma", ".", false⟩

/-- Generate world: a Node project with an existing Dockerfile; the operator
would confirm overwrite. -/
def genW0 : GenWorld := ⟨⟨true, false, false⟩, true, false, "node-prisma", true, "3000", "dist/server.js"⟩

/-- Generate world: a Node project with an existing Dockerfile; the operator
would decline overwrite. -/
def genW1 : GenWorld := ⟨⟨true, false, false⟩, true, false, "node-prisma", false, "3000", "dist/server.js"⟩

/-- Migrate flags: forced, local deployment, no database sync. -/
def mfForceLocal : MigrateFlags := ⟨"myapp:latest", Option.none, DbType.none, true⟩

/-- Migrate flags: forced, local deployment, postgres sync. -/
def mfForcePg : MigrateFlags := ⟨"myapp:latest", Option.none, DbType.postgres, true⟩

/-- Migrate flags: not forced, local deployment, no database sync. -/
def mfNoForceLocal : MigrateFlags := ⟨"myapp:latest", Option.none, DbType.none, false⟩

/-- Migrate world in which every external invocation succeeds. -/
def mwAllOk : MigrateWorld := ⟨true, true, true, "mydb", ExtResult.ok, ExtResult.ok, ExtResult.ok, ExtResult.ok⟩

/-- Migrate world in which the buildx invocation exits nonzero. -/
def mwBuildFail : MigrateWorld :=
  ⟨true, true, true, "mydb", ExtResult.err "buildx failed with exit code 1",
   ExtResult.ok, ExtResult.ok, ExtResult.ok⟩

/-- Migrate world in which the dump tool is missing. -/
def mwDumpFail : MigrateWorld :=
  ⟨true, true, true, "mydb", ExtResult.ok, ExtResult.err "pg_dump: command not found",
   ExtResult.ok, ExtResult.ok⟩

/-- Migrate world in which everything succeeds but where the operator would
decline the build confirmation. -/
def mwDecline : MigrateWorld := ⟨true, true, false, "mydb", ExtResult.ok, ExtResult.ok, ExtResult.ok, ExtResult.ok⟩

/-- Migrate world with a missing Dockerfile. -/
def mwNoFiles : MigrateWorld := ⟨false, true, true, "mydb", ExtResult.ok, ExtResult.ok, ExtResult.ok, ExtResult.ok⟩

/-- Troubleshoot flags naming a container explicitly. -/
def tsF0 : TsFlags := ⟨Option.some "abc123"⟩

/-- Troubleshoot world: one exited container with no port bindings. -/
def tsW0 : TsWorld :=
  ⟨[⟨"abc123", "/myapp", "Exited (1) 2 hours ago"⟩], "abc123",
   ⟨"/myapp", "exited", Option.some [], "myapp:latest"⟩, false, ""⟩

/-- Troubleshoot world with an empty container list. -/
def tsWEmpty : TsWorld :=
  ⟨[], "", ⟨"/myapp", "running", Option.some ["3000/tcp"], "myapp:latest"⟩, false, ""⟩

/-! ## Helper lemmas -/

/-- Stack resolution produces no file-write events. -/
theorem resolveStack_no_writes (flags : GenFlags) (w : GenWorld) :
    ((Generate.resolveStack flags w).1).filter isWrite = [] := by
  rcases hs : flags.stack with _ | s
  · rcases hd : detectStack w.dir with _ | s <;>
      simp [Generate.resolveStack, hs, hd, isWrite]
  · simp [Generate.resolveStack, hs]

/-- Step 1 of migrate contains no data-sync or deployment events. -/
theorem step1_no_later_events (flags : MigrateFlags) (w : MigrateWorld) :
    (Migrate.step1 flags w).1.filter isRanDump = []
    ∧ (Migrate.step1 flags w).1.filter isDockerVersionQuery = []
    ∧ (Migrate.step1 flags w).1.filter isRanComposeUp = []
    ∧ (Migrate.step1 flags w).1.filter isVpsInstr = []
    ∧ MEvent.prompted "Database name?" ∉ (Migrate.step1 flags w).1 := by
  cases hf : flags.force <;> cases ha : w.buildAnswer <;> cases hb : w.buildResult <;>
    simp [Migrate.step1, hf, ha, hb, isRanDump, isDockerVersionQuery, isRanComposeUp,
      isVpsInstr]

/-- Step 2 of migrate contains no build or deployment events. -/
theorem step2_no_deploy_events (flags : MigrateFlags) (w : MigrateWorld) :
    (Migrate.step2 flags w).1.filter isRanBuild = []
    ∧ (Migrate.step2 flags w).1.filter isDockerVersionQuery = []
    ∧ (Migrate.step2 flags w).1.filter isRanComposeUp = []
    ∧ (Migrate.step2 flags w).1.filter isVpsInstr = [] := by
  cases hd : flags.dbType <;> cases hr : w.dumpResult <;>
    simp [Migrate.step2, hd, hr, isRanBuild, isDockerVersionQuery, isRanComposeUp, isVpsInstr]

/-- Step 3 of migrate contains no build or dump events, never takes both
deployment paths, and (when the daemon query succeeds) takes the local path
iff the vps flag is falsy and the manual path iff it is truthy. -/
theorem step3_characterization (flags : MigrateFlags) (w : MigrateWorld) :
    (Migrate.step3 flags w).1.filter isRanBuild = []
    ∧ (Migrate.step3 flags w).1.filter isRanDump = []
    ∧ ¬((Migrate.step3 flags w).1.filter isRanComposeUp ≠ []
        ∧ (Migrate.step3 flags w).1.filter isVpsInstr ≠ [])
    ∧ (w.dockerVersionResult = ExtResult.ok →
        (((Migrate.step3 flags w).1.filter isRanComposeUp ≠ []) ↔ optTruthy flags.vps = false)
        ∧ (((Migrate.step3 flags w).1.filter isVpsInstr ≠ []) ↔ optTruthy flags.vps = true)) := by
  cases hv : w.dockerVersionResult <;> cases ht : optTruthy flags.vps <;>
    cases hc : w.composeUpResult <;>
    simp [Migrate.step3, hv, ht, hc, isRanBuild, isRanDump, isRanComposeUp, isVpsInstr]

/-! ## Claim theorems -/

/-- Claim C9: for every directory state, `detectStack` returns only
`node-prisma`, `python`, or undetected — never `react`, because the react
branch requires a `package.json` already captured by the node-prisma check. -/
theorem detectStack_never_react (d : DirState) :
    detectStack d ≠ Option.some "react"
    ∧ (detectStack d = Option.some "node-prisma"
        ∨ detectStack d = Option.some "python"
        ∨ detectStack d = Option.none) := by
  rcases d with ⟨p, r, s⟩
  cases p <;> cases r <;> cases s <;> simp [detectStack]

/-- Claim C5: the Template Generator is deterministic — any two invocations of
the Dockerfile-content and compose-content functions with identical stack,
port and entrypoint produce byte-identical artifact content. -/
theorem templates_deterministic (s1 s2 : Option String) (a1 a2 : GenAnswers)
    (hs : s1 = s2) (ha : a1 = a2) :
    generateDockerfileContent s1 a1 = generateDockerfileContent s2 a2
    ∧ generateComposeContent s1 a1 = generateComposeContent s2 a2 := by
  subst hs
  subst ha
  exact ⟨rfl, rfl⟩

/-- Witness for C5 at the node-prisma profile with port 3000 and entrypoint
dist/server.js. -/
theorem templates_deterministic_witness :
    generateDockerfileContent (Option.some "node-prisma") ⟨"3000", "dist/server.js"⟩
      = generateDockerfileContent (Option.some "node-prisma") ⟨"3000", "dist/server.js"⟩
    ∧ generateComposeContent (Option.some "node-prisma") ⟨"3000", "dist/server.js"⟩
      = generateComposeContent (Option.some "node-prisma") ⟨"3000", "dist/server.js"⟩ :=
  templates_deterministic (Option.some "node-prisma") (Option.some "node-prisma")
    ⟨"3000", "dist/server.js"⟩ ⟨"3000", "dist/server.js"⟩ rfl rfl

/-- Claim C8: a migrate invocation with a missing artifact, and a troubleshoot
invocation with an empty container list, report the missing prerequisite and
return early with exactly two informational log lines — no build, dump,
deployment, prompt or inspection takes place. -/
theorem missing_prereqs_early_return :
    (∀ (flags : MigrateFlags) (w : MigrateWorld), Migrate.checkDockerFiles w = false →
      Migrate.run flags w =
        ([MEvent.logged ("Starting migration for image: " ++ flags.image ++ "."),
          MEvent.logged "Missing Docker files. Run harborcli generate first."],
         MResult.earlyReturn))
    ∧ (∀ (flags : TsFlags) (w : TsWorld), w.containers = [] →
      Troubleshoot.run flags w =
        ([TEvent.logged "Starting troubleshooting session.",
          TEvent.logged "No containers found. Start your app with docker-compose up."],
         TResult.earlyNoContainers)) := by
  constructor
  · intro flags w h
    simp [Migrate.run, h]
  · intro flags w h
    simp [Troubleshoot.run, h]

/-- Witness for C8: the missing-Dockerfile migrate world and the empty
container list both produce the early informational return. -/
theorem missing_prereqs_early_return_witness :
    (Migrate.run mfForceLocal mwNoFiles).2 = MResult.earlyReturn
    ∧ (Troubleshoot.run tsF0 tsWEmpty).2 = TResult.earlyNoContainers := by
  constructor
  · rw [missing_prereqs_early_return.1 mfForceLocal mwNoFiles (by decide)]
  · rw [missing_prereqs_early_return.2 tsF0 tsWEmpty rfl]

/-- Claim C3 (code-bug evidence): a nonzero exit of the external build tool is
not caught at the step boundary — the failure leaves `Migrate.run` as an
uncaught crash carrying the error text, contradicting the propagation
policy that converts every external failure into a reported error kind. -/
theorem migrate_external_failure_uncaught :
    (Migrate.run mfForceLocal mwBuildFail).2
      = MResult.crashed "buildx failed with exit code 1" := by
  rfl

/-- Claim C1: for every combination of artifact-existence flags, force flag
and confirmation answer, `Generate.run` writes the two artifacts iff neither
artifact exists, or force is set, or the operator confirms overwrite; in every
other case it performs no write and reports the generation as skipped. -/
theorem generate_guard (flags : GenFlags) (w : GenWorld) :
    (((Generate.run flags w).1.filter isWrite ≠ []) ↔
      genAuthorized w.dockerfileExists w.composeExists flags.force w.overwriteAnswer = true)
    ∧ (genAuthorized w.dockerfileExists w.composeExists flags.force w.overwriteAnswer = false →
      (Generate.run flags w).1.filter isWrite = []
      ∧ (Generate.run flags w).2 = GenResult.skipped
      ∧ GEvent.logged "Generation skipped. Use --force to override." ∈ (Generate.run flags w).1)
    ∧ (genAuthorized w.dockerfileExists w.composeExists flags.force w.overwriteAnswer = true →
      (Generate.run flags w).2 = GenResult.generated
      ∧ GEvent.wrote (pathJoin flags.output "Dockerfile")
          (generateDockerfileContent (Option.some (Generate.resolveStack flags w).2)
            ⟨w.portAnswer, w.entrypointAnswer⟩) ∈ (Generate.run flags w).1
      ∧ GEvent.wrote (pathJoin flags.output "docker-compose.yml")
          (generateComposeContent (Option.some (Generate.resolveStack flags w).2)
            ⟨w.portAnswer, w.entrypointAnswer⟩) ∈ (Generate.run flags w).1) := by
  have hw := resolveStack_no_writes flags w
  rcases hrs : Generate.resolveStack flags w with ⟨es1, stack⟩
  rw [hrs] at hw
  cases hdf : w.dockerfileExists <;> cases hc : w.composeExists <;>
    cases hf : flags.force <;> cases ha : w.overwriteAnswer <;>
    simp [Generate.run, hrs, hdf, hc, hf, ha, genAuthorized, isWrite,
      List.filter_append, hw]

/-- Witness for C1: with an existing Dockerfile, a forced run generates both
artifacts while a declined overwrite skips generation. -/
theorem generate_guard_witness :
    (Generate.run genF0 genW0).2 = GenResult.generated
    ∧ (Generate.run genF1 genW1).2 = GenResult.skipped :=
  ⟨((generate_guard genF0 genW0).2.2 rfl).1,
   ((generate_guard genF1 genW1).2.1 rfl).2.1⟩

/-- Claim C2: whenever the build/publish tool exits nonzero, the migrate run
ends crashed carrying the error text, and neither the Data Sync step
(database-name prompt, dump invocation) nor the Deployment Selector step
(daemon query, compose up, VPS instructions) is ever executed afterward. -/
theorem migrate_build_failure_halts (flags : MigrateFlags) (w : MigrateWorld) (e : String)
    (hfiles : Migrate.checkDockerFiles w = true)
    (hconfirm : (flags.force || w.buildAnswer) = true)
    (hbuild : w.buildResult = ExtResult.err e) :
    (Migrate.run flags w).2 = MResult.crashed e
    ∧ (Migrate.run flags w).1.filter isRanDump = []
    ∧ MEvent.prompted "Database name?" ∉ (Migrate.run flags w).1
    ∧ (Migrate.run flags w).1.filter isDockerVersionQuery = []
    ∧ (Migrate.run flags w).1.filter isRanComposeUp = []
    ∧ (Migrate.run flags w).1.filter isVpsInstr = [] := by
  cases hf : flags.force <;> rw [hf] at hconfirm <;>
    simp only [Bool.false_or, Bool.true_or] at hconfirm <;>
    simp [Migrate.run, Migrate.step1, hfiles, hf, hconfirm, hbuild, isRanDump,
      isDockerVersionQuery, isRanComposeUp, isVpsInstr]

/-- Witness for C2: the forced invocation against the failing-build world
crashes with the error text and runs no later step. -/
theorem migrate_build_failure_halts_witness :
    (Migrate.run mfForceLocal mwBuildFail).2
        = MResult.crashed "buildx failed with exit code 1"
    ∧ (Migrate.run mfForceLocal mwBuildFail).1.filter isRanDump = []
    ∧ (Migrate.run mfForceLocal mwBuildFail).1.filter isDockerVersionQuery = [] := by
  have h := migrate_build_failure_halts mfForceLocal mwBuildFail
    "buildx failed with exit code 1" (by decide) (by decide) (by decide)
  exact ⟨h.1, h.2.1, h.2.2.2.1⟩

/-- Counterexample for C4: with dbType postgres and a failing dump tool, the
migrate run crashes with the dump error and the Deployment Selector step never
runs — contradicting the claim that a dump failure is a mere warning after
which deployment still proceeds. -/
theorem migrate_dump_failure_cex :
    (Migrate.run mfForcePg mwDumpFail).2 = MResult.crashed "pg_dump: command not found"
    ∧ (Migrate.run mfForcePg mwDumpFail).1.filter isDockerVersionQuery = []
    ∧ (Migrate.run mfForcePg mwDumpFail).1.filter isRanComposeUp = []
    ∧ (Migrate.run mfForcePg mwDumpFail).1.filter isVpsInstr = [] := by
  exact ⟨rfl, rfl, rfl, rfl⟩

/-- Claim C4 as amended: for every migrate invocation with dbType postgres or
mysql in which the dump tool fails, the failure is not surfaced as a warning —
it ends the run as an uncaught crash carrying the dump error, and the
Deployment Selector step never runs afterward. -/
theorem migrate_dump_failure_aborts (flags : MigrateFlags) (w : MigrateWorld) (e : String)
    (hfiles : Migrate.checkDockerFiles w = true)
    (hstep1 : (Migrate.step1 flags w).2 = Option.none)
    (hdb : flags.dbType = DbType.postgres ∨ flags.dbType = DbType.mysql)
    (hdump : w.dumpResult = ExtResult.err e) :
    (Migrate.run flags w).2 = MResult.crashed e
    ∧ (Migrate.run flags w).1.filter isDockerVersionQuery = []
    ∧ (Migrate.run flags w).1.filter isRanComposeUp = []
    ∧ (Migrate.run flags w).1.filter isVpsInstr = [] := by
  have hs1 := step1_no_later_events flags w
  rcases h1 : Migrate.step1 flags w with ⟨es1, o1⟩
  rw [h1] at hstep1 hs1
  simp only at hstep1
  subst hstep1
  have h2 : Migrate.step2 flags w =
      ([MEvent.logged "Syncing data.", MEvent.prompted "Database name?",
        MEvent.ranDump (dumpCmd flags.dbType w.dbName)], Option.some e) := by
    rcases hdb with h | h <;> rw [h] <;> simp [Migrate.step2, h, hdump]
  simp [Migrate.run, hfiles, h1, h2, List.filter_append, hs1.2.1, hs1.2.2.1, hs1.2.2.2.1,
    isRanDump, isDockerVersionQuery, isRanComposeUp, isVpsInstr]

/-- Witness for C4 (amended): the forced postgres invocation with a failing
dump crashes before deployment. -/
theorem migrate_dump_failure_aborts_witness :
    (Migrate.run mfForcePg mwDumpFail).1.filter isRanComposeUp = [] :=
  (migrate_dump_failure_aborts mfForcePg mwDumpFail "pg_dump: command not found"
    (by decide) (by decide) (Or.inl rfl) (by decide)).2.2.1

/-- Claim C6: no migrate invocation takes both deployment paths; and whenever
the run reaches the Deployment Selector, it executes the local compose-up path
iff the vps target is empty or absent, and emits the manual remote-deployment
instructions otherwise. -/
theorem migrate_deployment_branch (flags : MigrateFlags) (w : MigrateWorld) :
    ¬((Migrate.run flags w).1.filter isRanComposeUp ≠ []
        ∧ (Migrate.run flags w).1.filter isVpsInstr ≠ [])
    ∧ (Migrate.checkDockerFiles w = true →
       (Migrate.step1 flags w).2 = Option.none →
       (Migrate.step2 flags w).2 = Option.none →
       w.dockerVersionResult = ExtResult.ok →
        (((Migrate.run flags w).1.filter isRanComposeUp ≠ []) ↔ optTruthy flags.vps = false)
        ∧ (((Migrate.run flags w).1.filter isVpsInstr ≠ []) ↔ optTruthy flags.vps = true)) := by
  have hs1 := step1_no_later_events flags w
  have hs2 := step2_no_deploy_events flags w
  have hs3 := step3_characterization flags w
  rcases h1 : Migrate.step1 flags w with ⟨es1, o1⟩
  rcases h2 : Migrate.step2 flags w with ⟨es2, o2⟩
  rcases h3 : Migrate.step3 flags w with ⟨es3, o3⟩
  rw [h1] at hs1
  rw [h2] at hs2
  rw [h3] at hs3
  cases hcf : Migrate.checkDockerFiles w
  · constructor
    · simp [Migrate.run, hcf, isRanComposeUp, isVpsInstr]
    · intro h
      exact absurd h (by decide)
  · cases o1 with
    | some e =>
      constructor
      · simp [Migrate.run, hcf, h1, List.filter_append, hs1.2.2.1, hs1.2.2.2.1,
          isRanComposeUp, isVpsInstr]
      · intro _ hst1
        exact absurd hst1 (by simp)
    | none =>
      cases o2 with
      | some e =>
        constructor
        · simp [Migrate.run, hcf, h1, h2, List.filter_append, hs1.2.2.1, hs1.2.2.2.1,
            hs2.2.2.1, hs2.2.2.2, isRanComposeUp, isVpsInstr]
        · intro _ _ hst2
          exact absurd hst2 (by simp)
      | none =>
        cases o3 with
        | some e =>
          constructor
          · simp only [Migrate.run, hcf, h1, h2, h3, Bool.not_true, Bool.false_eq_true,
              if_false, List.filter_append, hs1.2.2.1, hs1.2.2.2.1, hs2.2.2.1, hs2.2.2.2,
              List.nil_append, List.append_nil]
            simpa [isRanComposeUp, isVpsInstr] using hs3.2.2.1
          · intro _ _ _ hv
            simp only [Migrate.run, hcf, h1, h2, h3, Bool.not_true, Bool.false_eq_true,
              if_false, List.filter_append, hs1.2.2.1, hs1.2.2.2.1, hs2.2.2.1, hs2.2.2.2,
              List.nil_append, List.append_nil]
            simpa [isRanComposeUp, isVpsInstr] using hs3.2.2.2 hv
        | none =>
          constructor
          · simp only [Migrate.run, hcf, h1, h2, h3, Bool.not_true, Bool.false_eq_true,
              if_false, List.filter_append, hs1.2.2.1, hs1.2.2.2.1, hs2.2.2.1, hs2.2.2.2,
              List.nil_append, List.append_nil]
            simpa [isRanComposeUp, isVpsInstr] using hs3.2.2.1
          · intro _ _ _ hv
            simp only [Migrate.run, hcf, h1, h2, h3, Bool.not_true, Bool.false_eq_true,
              if_false, List.filter_append, hs1.2.2.1, hs1.2.2.2.1, hs2.2.2.1, hs2.2.2.2,
              List.nil_append, List.append_nil]
            simpa [isRanComposeUp, isVpsInstr] using hs3.2.2.2 hv

/-- Witness for C6: the forced local invocation with every external call
succeeding runs the local compose-up path and emits no VPS instructions. -/
theorem migrate_deployment_branch_witness :
    (Migrate.run mfForceLocal mwAllOk).1.filter isRanComposeUp ≠ []
    ∧ (Migrate.run mfForceLocal mwAllOk).1.filter isVpsInstr = [] := by
  have h := migrate_deployment_branch mfForceLocal mwAllOk
  have hreach := h.2 (by decide) (by decide) (by decide) (by decide)
  refine ⟨hreach.1.mpr (by decide), ?_⟩
  have h2 := hreach.2
  simp only [show optTruthy mfForceLocal.vps = false from by decide] at h2
  simpa using h2

/-- Claim C7: for every container the troubleshoot operation inspects, a
status other than running yields the not-running diagnosis, an empty or
absent port-binding mapping yields the no-ports diagnosis, and an exited
container with zero port bindings receives both. -/
theorem troubleshoot_diagnoses (flags : TsFlags) (w : TsWorld)
    (hne : w.containers.length ≠ 0)
    (htar : (Troubleshoot.resolveTarget flags w).2 ≠ "") :
    (w.inspect.status ≠ "running" →
      TEvent.diagnosedNotRunning w.inspect.status ∈ (Troubleshoot.run flags w).1)
    ∧ (portsConfigured w.inspect.ports = false →
      TEvent.diagnosedNoPorts ∈ (Troubleshoot.run flags w).1)
    ∧ (w.inspect.status = "exited" ∧ w.inspect.ports = Option.some [] →
      TEvent.diagnosedNotRunning "exited" ∈ (Troubleshoot.run flags w).1
      ∧ TEvent.diagnosedNoPorts ∈ (Troubleshoot.run flags w).1) := by
  have h0 : (w.containers.length == 0) = false := by simpa using hne
  rcases ht : Troubleshoot.resolveTarget flags w with ⟨selEs, target⟩
  rw [ht] at htar
  have h1 : (target == "") = false := by simpa using htar
  refine ⟨?_, ?_, ?_⟩
  · intro hs
    have hs2 : (w.inspect.status != "running") = true := by simpa using hs
    simp [Troubleshoot.run, ht, h0, h1, hs2]
  · intro hp
    simp [Troubleshoot.run, ht, h0, h1, hp]
  · rintro ⟨hs, hp⟩
    have hs2 : (w.inspect.status != "running") = true := by simp [hs]
    constructor
    · rw [← hs]
      simp [Troubleshoot.run, ht, h0, h1, hs2]
    · simp [Troubleshoot.run, ht, h0, h1, hp, portsConfigured]

/-- Witness for C7: the exited zero-port container receives both diagnoses. -/
theorem troubleshoot_diagnoses_witness :
    TEvent.diagnosedNotRunning "exited" ∈ (Troubleshoot.run tsF0 tsW0).1
    ∧ TEvent.diagnosedNoPorts ∈ (Troubleshoot.run tsF0 tsW0).1 :=
  (troubleshoot_diagnoses tsF0 tsW0 (by decide) (by decide)).2.2 ⟨rfl, rfl⟩

/-- Claim C10: when force is off and the operator declines the build-and-push
confirmation, no build is invoked, yet the pipeline still proceeds to the
data-sync step and to the Deployment Selector, which deploys the never-built
image reference (locally via compose up, or via the manual VPS instructions
naming that image). -/
theorem migrate_declined_build_continues (flags : MigrateFlags) (w : MigrateWorld)
    (hfiles : Migrate.checkDockerFiles w = true)
    (hforce : flags.force = false)
    (hanswer : w.buildAnswer = false)
    (hdump : flags.dbType ≠ DbType.none → w.dumpResult = ExtResult.ok)
    (hversion : w.dockerVersionResult = ExtResult.ok) :
    (Migrate.run flags w).1.filter isRanBuild = []
    ∧ (Migrate.run flags w).1.filter isDockerVersionQuery ≠ []
    ∧ (optTruthy flags.vps = false →
        MEvent.ranComposeUp "docker-compose up -d" ∈ (Migrate.run flags w).1)
    ∧ (optTruthy flags.vps = true →
        MEvent.vpsInstructions (flags.vps.getD "") flags.image ∈ (Migrate.run flags w).1)
    ∧ (flags.dbType = DbType.none →
        MEvent.logged "Skipping data sync. Use --dbType to enable." ∈ (Migrate.run flags w).1)
    ∧ (flags.dbType ≠ DbType.none → (Migrate.run flags w).1.filter isRanDump ≠ []) := by
  have h1 : Migrate.step1 flags w =
      ([MEvent.prompted "Build and push the Docker image?"], Option.none) := by
    simp [Migrate.step1, hforce, hanswer]
  have h2 : (Migrate.step2 flags w).2 = Option.none ∧
      ((flags.dbType = DbType.none →
        MEvent.logged "Skipping data sync. Use --dbType to enable." ∈ (Migrate.step2 flags w).1)
      ∧ (flags.dbType ≠ DbType.none → (Migrate.step2 flags w).1.filter isRanDump ≠ [])) := by
    cases hd : flags.dbType
    · have hok : w.dumpResult = ExtResult.ok := hdump (by simp [hd])
      simp [Migrate.step2, hd, hok, isRanDump]
    · have hok : w.dumpResult = ExtResult.ok := hdump (by simp [hd])
      simp [Migrate.step2, hd, hok, isRanDump]
    · simp [Migrate.step2, hd]
  rcases hs2 : Migrate.step2 flags w with ⟨es2, o2⟩
  rw [hs2] at h2
  simp only at h2
  obtain ⟨ho2, hsync⟩ := h2
  subst ho2
  have hb2 := step2_no_deploy_events flags w
  rw [hs2] at hb2
  cases htv : optTruthy flags.vps <;> cases hcu : w.composeUpResult <;>
    simp_all [Migrate.run, Migrate.step3, h1, hs2, hversion, htv, hcu, List.filter_append,
      isRanBuild, isDockerVersionQuery, isRanDump]

/-- Witness for C10: the unforced invocation whose operator declines the build
runs no build yet still reaches the local compose-up deployment. -/
theorem migrate_declined_build_continues_witness :
    (Migrate.run mfNoForceLocal mwDecline).1.filter isRanBuild = []
    ∧ MEvent.ranComposeUp "docker-compose up -d" ∈ (Migrate.run mfNoForceLocal mwDecline).1 := by
  have h := migrate_declined_build_continues mfNoForceLocal mwDecline (by decide) rfl rfl
    (fun hc => absurd rfl hc) rfl
  exact ⟨h.1, h.2.2.1 (by decide)⟩

/-- Witness for C9: a directory with both package.json and src/index.js is
still classified node-prisma, not react. -/
theorem detectStack_never_react_witness :
    detectStack ⟨true, false, true⟩ ≠ Option.some "react"
    ∧ detectStack ⟨true, false, true⟩ = Option.some "node-prisma" :=
  ⟨(detectStack_never_react ⟨true, false, true⟩).1, rfl⟩
